import Mathlib

/-!
Verification of the bot bootstrap / pipeline core (`src/bot/root.controller.ts`).

The development shallowly embeds the observable behaviour of `RootController`:
the inbound admission filter and rate limiter, the outbound throttler/retry
wiring, the dependency container, and the `register()` / `run()` lifecycle.
Library code that the controller merely configures (grammY's `Bot`, the
`@grammyjs/ratelimiter` limiter, `@grammyjs/auto-retry`, and the awilix
container) is not part of the repository source; those parts are modelled
from the specification, as flagged in their doc comments.
-/

namespace Circles

/-! ## Incoming update (grammY context) data model -/

/-- A Telegram message entity; the filter only inspects its `type` field. -/
structure MessageEntity where
  type : String
deriving DecidableEq, Repr

/-- The message an update replies to; the filter only reads its text. -/
structure ReplyMessage where
  text : Option String
deriving DecidableEq, Repr

/-- An incoming message: `ctx.message` with the fields the pipeline reads. -/
structure Message where
  text : Option String
  reply_to_message : Option ReplyMessage
  entities : Option (List MessageEntity)
deriving DecidableEq, Repr

/-- A callback query: `ctx.callbackQuery` with its optional `data` payload. -/
structure CallbackQuery where
  data : Option String
deriving DecidableEq, Repr

/-- The sender: `ctx.from`, carrying the numeric user id. -/
structure User where
  id : Int
deriving DecidableEq, Repr

/-- The chat: `ctx.chat`, carrying the numeric chat id. -/
structure Chat where
  id : Int
deriving DecidableEq, Repr

/-- The slice of a grammY context the root controller's pipeline inspects.
`from` is a Lean keyword, so the `ctx.from` field is named `from_`. -/
structure Ctx where
  message : Option Message
  callbackQuery : Option CallbackQuery
  from_ : Option User
  chat : Option Chat
deriving DecidableEq, Repr

/-! ## Admission filter (`_scaffoldBot`, the `.filter(...)` predicate) -/

/-- JS `s?.startsWith('/')` folded through optional chaining: `none`
(undefined) is falsy in the enclosing `||` chain. -/
def optStartsWithSlash : Option String → Bool
  | none => false
  | some s => s.startsWith "/"

/-- JS `!!data`: an absent or empty string is falsy. -/
def truthyString : Option String → Bool
  | none => false
  | some s => !(s == "")

/-- `ctx.message?.entities?.some(e => e.type === 'hashtag')` with the
optional chain collapsing to falsy. -/
def optHasHashtag : Option (List MessageEntity) → Bool
  | none => false
  | some es => es.any (fun e => e.type == "hashtag")

/-- The `.filter` predicate of `_scaffoldBot`:
`ctx.message?.text?.startsWith('/') ||
 ctx.message?.reply_to_message?.text?.startsWith('/') ||
 !!ctx.callbackQuery?.data ||
 ctx.message?.entities?.some(e => e.type === 'hashtag') || false`. -/
def admissionFilter (ctx : Ctx) : Bool :=
  optStartsWithSlash (ctx.message.bind Message.text)
  || optStartsWithSlash ((ctx.message.bind Message.reply_to_message).bind ReplyMessage.text)
  || truthyString (ctx.callbackQuery.bind CallbackQuery.data)
  || optHasHashtag (ctx.message.bind Message.entities)
  || false

/-! ## Rate limiter key (`keyGenerator`) -/

/-- How `Array.prototype.join` renders one element: `undefined` becomes the
empty string, a present id is rendered in decimal via `toString()`. -/
def joinElem : Option Int → String
  | none => ""
  | some i => toString i

/-- `keyGenerator: ctx => [ctx.from?.id.toString(), ctx.chat?.id.toString()].join('###')`. -/
def keyGenerator (ctx : Ctx) : String :=
  joinElem (ctx.from_.map User.id) ++ "###" ++ joinElem (ctx.chat.map Chat.id)

/-! ## Rate limiter (`limit({timeFrame: 2000, limit: 5, ...})`)

The limiter implementation lives in `@grammyjs/ratelimiter`, outside the
repository source; its semantics are modelled from the specification. -/

/-- `timeFrame: 2000` — the rate-limit window length in time units. -/
def timeFrame : Nat := 2000

/-- `limit: 5` — the per-window admission limit. -/
def rlLimit : Nat := 5

/-- A rate-limit window for one key: its start time and admitted count. -/
structure RLWindow where
  start : Nat
  count : Nat
deriving DecidableEq, Repr

/-- Modelled from the spec: one step of the `@grammyjs/ratelimiter` limiter
(not in `src/`) for a single key at time `t`. The window is created lazily on
first update; if the elapsed time since window start exceeds `timeFrame` the
count is reset and the window restarted; an update is admitted (and counted)
only while `count < rlLimit`, otherwise it is rejected with the count left
unchanged. Returns (admitted?, updated window). -/
def limitStep (t : Nat) (w : Option RLWindow) : Bool × RLWindow :=
  let w0 : RLWindow :=
    match w with
    | none => { start := t, count := 0 }
    | some w =>
      if t - w.start > timeFrame then { start := t, count := 0 } else w
  if w0.count < rlLimit then (true, { w0 with count := w0.count + 1 })
  else (false, w0)

/-- What a single update produces observably: whether it was forwarded to
handlers, the warning log payload (sender and chat) if rejected, and the
reply text if rejected. -/
structure Outcome where
  forwarded : Bool
  warn : Option (Option User × Option Chat)
  reply : Option String
deriving DecidableEq, Repr

/-- The outcome of an admitted update: forwarded, no warning, no reply. -/
def admittedOutcome : Outcome :=
  { forwarded := true, warn := none, reply := none }

/-- The outcome of a rejected update, per `onLimitExceeded`: not forwarded,
a warning carrying `ctx.from` and `ctx.chat`, and the reply
`'Slow down please'` sent back. -/
def rejectedOutcome (ctx : Ctx) : Outcome :=
  { forwarded := false
    warn := some (ctx.from_, ctx.chat)
    reply := some "Slow down please" }

/-- Run the limiter over a sequence of eligible updates (each with its
arrival time) sharing one rate-limit key, threading the window state. -/
def processUpdates : List (Ctx × Nat) → Option RLWindow → List Outcome
  | [], _ => []
  | (c, t) :: rest, w =>
    let s := limitStep t w
    (if s.1 then admittedOutcome else rejectedOutcome c) :: processUpdates rest (some s.2)

/-! ## Inbound pipeline: the filter gates the limiter
(`this._bot.filter(...).use(limit(...))`) -/

/-- One inbound update through the wired pipeline: only updates matching the
admission filter reach the limiter (and are counted); all others bypass it
with the window state untouched and still reach handlers. Returns
(reaches handlers?, window state after). -/
def inboundStep (ctx : Ctx) (t : Nat) (w : Option RLWindow) : Bool × Option RLWindow :=
  if admissionFilter ctx then
    let s := limitStep t w
    (s.1, some s.2)
  else
    (true, w)

/-! ## Outbound retry (`autoRetry({maxRetryAttempts: 2, maxDelaySeconds: 40})`)

The retry transformer lives in `@grammyjs/auto-retry`, outside the
repository source; its semantics are modelled from the specification. -/

/-- `maxRetryAttempts: 2` — retries after the original attempt. -/
def maxRetryAttempts : Nat := 2

/-- `maxDelaySeconds: 40` — the cap on total backoff delay across all
retries for one call, in time units. -/
def maxDelayBudget : Nat := 40

/-- What one attempt of an outgoing API call can produce: success, a
transient (retryable) failure suggesting a backoff delay, or a permanent
(non-retryable) failure. -/
inductive ApiOutcome (α : Type) where
  | ok (a : α)
  | transient (retryAfter : Nat)
  | permanent (err : String)
deriving DecidableEq, Repr

/-- Modelled from the spec: the retry loop of `@grammyjs/auto-retry` (not in
`src/`). `attempts i` is what the external API returns on the `i`-th attempt
of this call. A success or a permanent failure ends the loop at once; a
transient failure is retried while retries remain, each backoff charged
against the remaining delay budget; exhausting retries propagates the last
failure. Returns (final outcome, total backoff delay, attempts made). -/
def autoRetryGo {α : Type} (attempts : Nat → ApiOutcome α) :
    Nat → Nat → Nat → Nat → ApiOutcome α × Nat × Nat
  | i, retriesLeft, budget, delayAcc =>
    match attempts i with
    | .ok a => (.ok a, delayAcc, i + 1)
    | .permanent e => (.permanent e, delayAcc, i + 1)
    | .transient d =>
      match retriesLeft with
      | 0 => (.transient d, delayAcc, i + 1)
      | r + 1 =>
        let wait := min d budget
        autoRetryGo attempts (i + 1) r (budget - wait) (delayAcc + wait)

/-- An outgoing call through the retry stage as configured by
`_scaffoldBot`: original attempt plus at most `maxRetryAttempts` retries,
with total backoff capped at `maxDelayBudget`. -/
def autoRetryRun {α : Type} (attempts : Nat → ApiOutcome α) : ApiOutcome α × Nat × Nat :=
  autoRetryGo attempts 0 maxRetryAttempts maxDelayBudget 0

/-! ## Outbound transformer wiring order (`_scaffoldBot`) -/

/-- The two transformers `_scaffoldBot` installs on `bot.api.config`. -/
inductive Transformer where
  | apiThrottler
  | autoRetryT
deriving DecidableEq, Repr

/-- `bot.api.config.use(t)`: appends a transformer to the installed chain. -/
def configUse (installed : List Transformer) (t : Transformer) : List Transformer :=
  installed ++ [t]

/-- The outbound wiring performed by `_scaffoldBot`:
`this._bot.api.config.use(apiThrottler())` then
`this._bot.api.config.use(autoRetry(...))`, starting from an empty chain.
The chain is fixed at wiring time; nothing mutates it afterwards. -/
def outboundWiring : List Transformer :=
  configUse (configUse [] .apiThrottler) .autoRetryT

/-! ## Dependency container (awilix `createContainer` / `resolve`)

The container implementation is the awilix library, outside the repository
source; its resolution semantics are modelled from the specification. -/

/-- A registration entry: a plain value (`asValue`) or a singleton-cached
class factory (`asClass(...).singleton()`). -/
inductive Registration (α : Type) where
  | value (a : α)
  | singletonFactory (f : Unit → α)

/-- Modelled from the spec: the awilix container state (not in `src/`) —
registered entries, the cache of already-constructed singletons, and the
trace of names whose factory has been invoked (to count invocations). -/
structure Container (α : Type) where
  entries : List (String × Registration α)
  cache : List (String × α)
  calls : List String

/-- First association for a name in an association list. -/
def lookupName {β : Type} (l : List (String × β)) (n : String) : Option β :=
  (l.find? (fun p => p.1 == n)).map Prod.snd

/-- Modelled from the spec: `container.resolve(name)`. A cached singleton is
returned as-is; a registered value is returned without touching the state; a
singleton factory is invoked on first access and its result cached; an
unregistered name is a construction error, never a default or null. -/
def resolve {α : Type} (c : Container α) (n : String) : Except String (α × Container α) :=
  match lookupName c.cache n with
  | some a => .ok (a, c)
  | none =>
    match lookupName c.entries n with
    | none => .error ("Could not resolve " ++ n)
    | some (.value a) => .ok (a, c)
    | some (.singletonFactory f) =>
      let a := f ()
      .ok (a, { c with cache := (n, a) :: c.cache, calls := n :: c.calls })

/-! ## `register()` lifecycle -/

/-- The observable steps of `RootController.register()`. -/
inductive RegEvent where
  | scaffoldContainer
  | scaffoldBot
  | controllerReg (name : String)
deriving DecidableEq, Repr

/-- Invoke each feature controller's `register()` in list order; a
controller is given as its name and `none` (returns normally) or `some e`
(throws `e`). A throw stops the sequence and surfaces the error. -/
def runControllers : List (String × Option String) → List RegEvent × Option String
  | [] => ([], none)
  | (n, none) :: rest =>
    let s := runControllers rest
    (.controllerReg n :: s.1, s.2)
  | (n, some e) :: _ => ([.controllerReg n], some e)

/-- `RootController.register()`: `_scaffoldContainer()`, `_scaffoldBot()`,
then `chatsController.register()`, `neuroController.register()`,
`randomController.register()` in that order. Each controller's behaviour is
a parameter (`none` = returns, `some e` = throws `e`). Returns the executed
event trace and the error that surfaced, if any. -/
def rootRegister (chats neuro random : Option String) : List RegEvent × Option String :=
  let s := runControllers [("chats", chats), ("neuro", neuro), ("random", random)]
  (RegEvent.scaffoldContainer :: RegEvent.scaffoldBot :: s.1, s.2)

/-! ## `run()` lifecycle -/

/-- `UserFromGetMe`: the identity triple `run()` stores and logs. -/
structure UserFromGetMe where
  id : Nat
  username : String
  is_bot : Bool
deriving DecidableEq, Repr

/-- The observable steps of `RootController.run()`. -/
inductive RunEvent where
  | logInfoStarting
  | startLoop
  | logSuccessStarted
  | logErrorFailed
  | getMeCall
  | logBotInfo (id : Nat) (username : String) (is_bot : Bool)
deriving DecidableEq, Repr

/-- The environment `run()` interacts with: what `handle.isRunning()`
reports right after start, and what `api.getMe()` returns. -/
structure RunEnv where
  isRunning : Bool
  me : UserFromGetMe
deriving DecidableEq, Repr

/-- What `run()` leaves behind: the event trace, the stored `_me`, and
whether the returned handle reports itself running. -/
structure RunOutcome where
  events : List RunEvent
  storedMe : Option UserFromGetMe
  handleRunning : Bool
deriving DecidableEq, Repr

/-- `RootController.run()`: logs `'Starting bot'`, starts the runner, logs
success or error according to `handle.isRunning()` without aborting either
way, performs one `getMe()` lookup, stores the result in `_me`, logs the
`(id, username, is_bot)` triple, and returns the handle. -/
def rootRun (env : RunEnv) : RunOutcome :=
  { events :=
      RunEvent.logInfoStarting :: RunEvent.startLoop ::
        (if env.isRunning then RunEvent.logSuccessStarted else RunEvent.logErrorFailed) ::
          [RunEvent.getMeCall, RunEvent.logBotInfo env.me.id env.me.username env.me.is_bot]
    storedMe := some env.me
    handleRunning := env.isRunning }

/-! ## Bot construction (`new Bot(process.env.TG_BOT_TOKEN ?? '')`) -/

/-- Modelled from the spec: the grammY `Bot` (not in `src/`) as the holder
of the authentication token it is constructed with; the spec imposes no
validation at construction time. -/
structure Bot where
  token : String
deriving DecidableEq, Repr

/-- The `_bot` field initializer: `new Bot(process.env.TG_BOT_TOKEN ?? '')`,
where `env` is the value of `process.env.TG_BOT_TOKEN` (`none` = unset).
Nullish coalescing substitutes the empty string; construction is total. -/
def mkRootBot (env : Option String) : Bot :=
  { token := env.getD "" }

/-! ## Spec-side formulations (for the characterisation theorems) -/

/-- Spec wording: the update's message text starts with the command
prefix character. -/
def textIsCommand (ctx : Ctx) : Prop :=
  ∃ m t, ctx.message = some m ∧ m.text = some t ∧ t.startsWith "/" = true

/-- Spec wording: the message the update replies to started with the
command prefix character. -/
def replyIsCommand (ctx : Ctx) : Prop :=
  ∃ m r t, ctx.message = some m ∧ m.reply_to_message = some r ∧
    r.text = some t ∧ t.startsWith "/" = true

/-- Spec wording: the update carries callback-query data (a present,
non-empty payload — JS truthiness). -/
def carriesCallbackData (ctx : Ctx) : Prop :=
  ∃ q d, ctx.callbackQuery = some q ∧ q.data = some d ∧ d ≠ ""

/-- Spec wording: the update's message has a hashtag entity. -/
def hasHashtagEntity (ctx : Ctx) : Prop :=
  ∃ m es, ctx.message = some m ∧ m.entities = some es ∧
    ∃ e ∈ es, e.type = "hashtag"

/-- Spec wording for the rate-limit claim: within one window, the update at
(zero-based) position `p.1` is forwarded exactly when `p.1 < 5`, and every
later one is rejected with the warning and the reply. -/
def firstFiveOutcome (p : Nat × (Ctx × Nat)) : Outcome :=
  if p.1 < rlLimit then admittedOutcome else rejectedOutcome p.2.1

/-! ## Concrete sample inputs for the witness theorems -/

/-- A command-like update: message text `/start` from user 1 in chat 2. -/
def ctxCommand : Ctx :=
  { message := some { text := some "/start", reply_to_message := none, entities := none }
    callbackQuery := none
    from_ := some { id := 1 }
    chat := some { id := 2 } }

/-- An update with no message, no callback query, no sender and no chat. -/
def ctxPlain : Ctx :=
  { message := none, callbackQuery := none, from_ := none, chat := none }

/-- A sample container: a plain value and one singleton factory. -/
def contSample : Container Nat :=
  { entries := [("logger", .value 1), ("svc", .singletonFactory (fun _ => 2))]
    cache := []
    calls := [] }

/-- `contSample` after its singleton `svc` has been constructed once. -/
def contSample2 : Container Nat :=
  { entries := contSample.entries
    cache := [("svc", 2)]
    calls := ["svc"] }

/-! # Theorems -/

/-! ## Helper lemmas -/

theorem optStartsWithSlash_eq_true (o : Option String) :
    optStartsWithSlash o = true ↔ ∃ s, o = some s ∧ s.startsWith "/" = true := by
  cases o <;> simp [optStartsWithSlash]

theorem truthyString_eq_true (o : Option String) :
    truthyString o = true ↔ ∃ s, o = some s ∧ s ≠ "" := by
  cases o <;> simp [truthyString]

theorem optHasHashtag_eq_true (o : Option (List MessageEntity)) :
    optHasHashtag o = true ↔ ∃ es, o = some es ∧ ∃ e ∈ es, e.type = "hashtag" := by
  cases o <;> simp [optHasHashtag, List.any_eq_true]

/-! ## C7: outbound transformer order -/

/-- Claim C7: every outgoing call to the external API passes through the
throttling stage before the retry stage: `_scaffoldBot` installs exactly the
two outbound transformers, `apiThrottler` first and `autoRetry` second, and
the chain is a constant fixed at wiring time. -/
theorem outbound_wiring_order :
    outboundWiring = [Transformer.apiThrottler, Transformer.autoRetryT] ∧
    outboundWiring.indexOf Transformer.apiThrottler <
      outboundWiring.indexOf Transformer.autoRetryT := by
  constructor
  · rfl
  · decide

/-! ## C9: rate-limit key for updates missing both ids -/

/-- Claim C9: an update lacking both a sender id and a chat id gets the
bare-separator key `###` (missing ids render as empty strings in the join),
so all such updates share one rate-limit bucket. -/
theorem key_missing_ids (ctx : Ctx) (hf : ctx.from_ = none) (hc : ctx.chat = none) :
    keyGenerator ctx = "###" := by
  simp [keyGenerator, hf, hc, joinElem]

/-- Witness for `key_missing_ids` at a concrete update. -/
theorem key_missing_ids_witness : keyGenerator ctxPlain = "###" :=
  key_missing_ids ctxPlain rfl rfl

/-! ## C10: bot construction with an unset token variable -/

/-- Claim C10: with the bot-token environment variable unset, the bot is
constructed with the empty string as its token; construction is total and
does not fail fast on the missing variable. -/
theorem bot_token_default : mkRootBot none = { token := "" } := rfl

/-! ## C4: `register()` order and failure propagation -/

/-- Claim C4: `register()` invokes the feature controllers in the fixed
order chats, neuro, random, strictly after building the container and wiring
the pipelines; a throw from an earlier controller prevents every later one
from being invoked and surfaces to the caller. -/
theorem register_order (chats neuro random : Option String) :
    rootRegister none none none =
      ([RegEvent.scaffoldContainer, RegEvent.scaffoldBot, RegEvent.controllerReg "chats",
        RegEvent.controllerReg "neuro", RegEvent.controllerReg "random"], none) ∧
    (∀ e, chats = some e →
      rootRegister chats neuro random =
        ([RegEvent.scaffoldContainer, RegEvent.scaffoldBot,
          RegEvent.controllerReg "chats"], some e)) ∧
    (∀ e, chats = none → neuro = some e →
      rootRegister chats neuro random =
        ([RegEvent.scaffoldContainer, RegEvent.scaffoldBot, RegEvent.controllerReg "chats",
          RegEvent.controllerReg "neuro"], some e)) ∧
    (∀ e, chats = none → neuro = none → random = some e →
      rootRegister chats neuro random =
        ([RegEvent.scaffoldContainer, RegEvent.scaffoldBot, RegEvent.controllerReg "chats",
          RegEvent.controllerReg "neuro", RegEvent.controllerReg "random"], some e)) := by
  refine ⟨rfl, ?_, ?_, ?_⟩ <;> intros <;> subst_vars <;> rfl

/-- Witness for `register_order`: a chats-controller failure stops the
sequence before neuro and random and surfaces the error. -/
theorem register_order_witness :
    rootRegister (some "boom") none none =
      ([RegEvent.scaffoldContainer, RegEvent.scaffoldBot,
        RegEvent.controllerReg "chats"], some "boom") :=
  (register_order (some "boom") none none).2.1 "boom" rfl

/-! ## C8: `run()` behaviour -/

/-- Claim C8: `run()` starts the update loop, logs success when the loop
reports itself running and an error otherwise without aborting either way,
performs exactly one identity lookup, stores and logs the resulting
`(id, username, is_bot)` triple, and returns the running-loop handle. -/
theorem run_behaviour (env : RunEnv) :
    (rootRun env).events.count RunEvent.getMeCall = 1 ∧
    (env.isRunning = true →
      RunEvent.logSuccessStarted ∈ (rootRun env).events ∧
      RunEvent.logErrorFailed ∉ (rootRun env).events) ∧
    (env.isRunning = false →
      RunEvent.logErrorFailed ∈ (rootRun env).events ∧
      RunEvent.logSuccessStarted ∉ (rootRun env).events) ∧
    RunEvent.logBotInfo env.me.id env.me.username env.me.is_bot ∈ (rootRun env).events ∧
    (rootRun env).storedMe = some env.me ∧
    (rootRun env).handleRunning = env.isRunning := by
  cases h : env.isRunning <;>
    simp [rootRun, h, List.count_cons, List.count_singleton]

/-- Witness for `run_behaviour` at concrete environments: success is logged
on a healthy start, the error is logged on an unhealthy one, and both still
perform the single identity lookup. -/
theorem run_behaviour_witness :
    RunEvent.logSuccessStarted ∈
      (rootRun { isRunning := true, me := { id := 7, username := "bot", is_bot := true } }).events ∧
    RunEvent.logErrorFailed ∈
      (rootRun { isRunning := false, me := { id := 7, username := "bot", is_bot := true } }).events :=
  ⟨((run_behaviour { isRunning := true, me := { id := 7, username := "bot", is_bot := true } }).2.1
      rfl).1,
   ((run_behaviour { isRunning := false, me := { id := 7, username := "bot", is_bot := true } }).2.2.1
      rfl).1⟩

/-! ## C2: admission filter characterisation and bypass -/

/-- Claim C2: an update enters the rate-limiting stage iff its text starts
with `/`, or it replies to a message whose text starts with `/`, or it
carries callback-query data, or its message has a hashtag entity; an update
satisfying none of the four bypasses the limiter entirely — it is not
counted (window state unchanged), not rejected, and still reaches handlers. -/
theorem admission_characterisation (ctx : Ctx) (t : Nat) (w : Option RLWindow) :
    (admissionFilter ctx = true ↔
      textIsCommand ctx ∨ replyIsCommand ctx ∨ carriesCallbackData ctx ∨
        hasHashtagEntity ctx) ∧
    (admissionFilter ctx = false → inboundStep ctx t w = (true, w)) := by
  constructor
  · simp only [admissionFilter, Bool.or_false, Bool.or_eq_true,
      optStartsWithSlash_eq_true, truthyString_eq_true, optHasHashtag_eq_true,
      Option.bind_eq_some, textIsCommand, replyIsCommand, carriesCallbackData,
      hasHashtagEntity]
    aesop
  · intro h
    simp [inboundStep, h]

/-- Witness for `admission_characterisation`: a bare update (no message, no
callback query) bypasses the limiter with the window state untouched. -/
theorem admission_characterisation_witness :
    inboundStep ctxPlain 0 none = (true, none) :=
  (admission_characterisation ctxPlain 0 none).2 rfl

/-! ## C6: window reset and no increment on rejection -/

/-- Claim C6: once a window's elapsed time exceeds 2000 time-units, its
count is reset and the window restarted, so the next eligible update is
admitted even if the old window was exhausted; within a live window a
rejected update leaves the count unchanged. -/
theorem window_reset_no_increment (t : Nat) (w : RLWindow) :
    (t - w.start > timeFrame →
      limitStep t (some w) = (true, { start := t, count := 1 })) ∧
    (t - w.start ≤ timeFrame → rlLimit ≤ w.count →
      limitStep t (some w) = (false, w)) := by
  constructor
  · intro h
    simp [limitStep, h, rlLimit]
  · intro h1 h2
    have hn : ¬ (t - w.start > timeFrame) := by omega
    have hn2 : ¬ (w.count < rlLimit) := by omega
    simp [limitStep, hn, hn2]

/-- Witness for `window_reset_no_increment`: an exhausted window (count 5)
started at 0 admits again at time 3000, and still rejects without counting
at time 1000. -/
theorem window_reset_no_increment_witness :
    limitStep 3000 (some { start := 0, count := 5 }) = (true, { start := 3000, count := 1 }) ∧
    limitStep 1000 (some { start := 0, count := 5 }) = (false, { start := 0, count := 5 }) :=
  ⟨(window_reset_no_increment 3000 { start := 0, count := 5 }).1 (by decide),
   (window_reset_no_increment 1000 { start := 0, count := 5 }).2 (by decide) (by decide)⟩

/-! ## C5: container singleton caching and unregistered names -/

/-- Claim C5: resolving the same singleton-registered name twice yields the
identical instance with the container state unchanged by the second
resolution (so the factory runs at most once — the call trace grows by at
most the first resolution); resolving an unregistered name fails with a
construction error rather than returning a default or null. -/
theorem container_singleton_resolution {α : Type} (c : Container α) (n : String) :
    (∀ a c2, resolve c n = Except.ok (a, c2) →
      resolve c2 n = Except.ok (a, c2) ∧
      (c2.calls = c.calls ∨ c2.calls = n :: c.calls)) ∧
    (lookupName c.cache n = none → lookupName c.entries n = none →
      resolve c n = Except.error ("Could not resolve " ++ n)) := by
  constructor
  · intro a c2 h
    cases hc : lookupName c.cache n with
    | some a0 =>
      simp only [resolve, hc, Except.ok.injEq, Prod.mk.injEq] at h
      obtain ⟨ha, hc2⟩ := h
      subst ha
      subst hc2
      constructor
      · simp [resolve, hc]
      · exact Or.inl rfl
    | none =>
      cases he : lookupName c.entries n with
      | none => simp [resolve, hc, he] at h
      | some reg =>
        cases reg with
        | value a0 =>
          simp only [resolve, hc, he, Except.ok.injEq, Prod.mk.injEq] at h
          obtain ⟨ha, hc2⟩ := h
          subst ha
          subst hc2
          constructor
          · simp [resolve, hc, he]
          · exact Or.inl rfl
        | singletonFactory f =>
          simp only [resolve, hc, he, Except.ok.injEq, Prod.mk.injEq] at h
          obtain ⟨ha, hc2⟩ := h
          subst ha
          subst hc2
          constructor
          · simp [resolve, lookupName, List.find?]
          · exact Or.inr rfl
  · intro h1 h2
    simp [resolve, h1, h2]

/-- Witness for `container_singleton_resolution`: the sample container's
singleton resolves to the same instance twice with one factory call, and an
unregistered name is a construction error. -/
theorem container_singleton_resolution_witness :
    resolve contSample2 "svc" = Except.ok (2, contSample2) ∧
    resolve contSample "nope" = Except.error "Could not resolve nope" :=
  ⟨((container_singleton_resolution contSample "svc").1 2 contSample2 rfl).1,
   (container_singleton_resolution contSample "nope").2 rfl rfl⟩

/-! ## C3: outbound retry bounds -/

theorem autoRetryGo_delay_le {α : Type} (attempts : Nat → ApiOutcome α) :
    ∀ (r i b acc : Nat), (autoRetryGo attempts i r b acc).2.1 ≤ acc + b := by
  intro r
  induction r with
  | zero =>
    intro i b acc
    unfold autoRetryGo
    cases attempts i <;> simp
  | succ r ih =>
    intro i b acc
    unfold autoRetryGo
    cases attempts i with
    | ok a => simp
    | permanent e => simp
    | transient d =>
      have hrec := ih (i + 1) (b - min d b) (acc + min d b)
      have hmin : min d b ≤ b := Nat.min_le_right d b
      simp only []
      omega

theorem autoRetryGo_attempts_le {α : Type} (attempts : Nat → ApiOutcome α) :
    ∀ (r i b acc : Nat), (autoRetryGo attempts i r b acc).2.2 ≤ i + r + 1 := by
  intro r
  induction r with
  | zero =>
    intro i b acc
    unfold autoRetryGo
    cases attempts i <;> simp
  | succ r ih =>
    intro i b acc
    unfold autoRetryGo
    cases attempts i with
    | ok a => simp
    | permanent e => simp
    | transient d =>
      have hrec := ih (i + 1) (b - min d b) (acc + min d b)
      simp only []
      omega

/-- Claim C3: for every outgoing call, the retry stage makes at most 2
retries after the original attempt (at most 3 attempts total) with total
backoff delay never exceeding 40 time-units; a permanent failure is not
retried and propagates at once; two transient failures followed by a
success return the success; three transient failures exhaust the budget and
propagate the last failure. -/
theorem retry_bounds {α : Type} (attempts : Nat → ApiOutcome α) :
    (autoRetryRun attempts).2.2 ≤ 1 + maxRetryAttempts ∧
    (autoRetryRun attempts).2.1 ≤ maxDelayBudget ∧
    (∀ e, attempts 0 = ApiOutcome.permanent e →
      autoRetryRun attempts = (ApiOutcome.permanent e, 0, 1)) ∧
    (∀ d0 d1 a, attempts 0 = ApiOutcome.transient d0 →
      attempts 1 = ApiOutcome.transient d1 → attempts 2 = ApiOutcome.ok a →
      (autoRetryRun attempts).1 = ApiOutcome.ok a) ∧
    (∀ d0 d1 d2, attempts 0 = ApiOutcome.transient d0 →
      attempts 1 = ApiOutcome.transient d1 → attempts 2 = ApiOutcome.transient d2 →
      (autoRetryRun attempts).1 = ApiOutcome.transient d2) := by
  refine ⟨?_, ?_, ?_, ?_, ?_⟩
  · have h := autoRetryGo_attempts_le attempts maxRetryAttempts 0 maxDelayBudget 0
    simp only [autoRetryRun]
    omega
  · have h := autoRetryGo_delay_le attempts maxRetryAttempts 0 maxDelayBudget 0
    simp only [autoRetryRun]
    omega
  · intro e h
    simp [autoRetryRun, autoRetryGo, h]
  · intro d0 d1 a h0 h1 h2
    simp [autoRetryRun, maxRetryAttempts, maxDelayBudget, autoRetryGo, h0, h1, h2]
  · intro d0 d1 d2 h0 h1 h2
    simp [autoRetryRun, maxRetryAttempts, maxDelayBudget, autoRetryGo, h0, h1, h2]

/-- Witness for `retry_bounds`: a call that fails permanently on its first
attempt propagates at once with no backoff and no retry. -/
theorem retry_bounds_witness :
    autoRetryRun (fun _ => (ApiOutcome.permanent "forbidden" : ApiOutcome Nat)) =
      (ApiOutcome.permanent "forbidden", 0, 1) :=
  (retry_bounds (fun _ => (ApiOutcome.permanent "forbidden" : ApiOutcome Nat))).2.2.1
    "forbidden" rfl

/-! ## C1: first five eligible updates admitted, the rest rejected -/

theorem enumFrom_map_rejected (l : List (Ctx × Nat)) :
    ∀ c, rlLimit ≤ c →
      (List.enumFrom c l).map firstFiveOutcome = l.map (fun p => rejectedOutcome p.1) := by
  induction l with
  | nil => intro c h; rfl
  | cons hd tl ih =>
    intro c h
    simp only [List.enumFrom, List.map, firstFiveOutcome]
    rw [if_neg (by omega)]
    rw [ih (c + 1) (by omega)]

theorem processUpdates_all_rejected (t0 : Nat) (l : List (Ctx × Nat)) :
    ∀ c, rlLimit ≤ c →
      (∀ p ∈ l, p.2 - t0 ≤ timeFrame) →
      processUpdates l (some { start := t0, count := c }) =
        l.map (fun p => rejectedOutcome p.1) := by
  induction l with
  | nil => intro c h5 h; rfl
  | cons hd tl ih =>
    intro c h5 h
    obtain ⟨cx, t⟩ := hd
    have ht : t - t0 ≤ timeFrame := (h (cx, t) (List.mem_cons_self _ _))
    have hnr : ¬ (t - t0 > timeFrame) := by omega
    have hnc : ¬ (c < rlLimit) := by omega
    have hstep : limitStep t (some { start := t0, count := c }) =
        (false, { start := t0, count := c }) := by
      simp [limitStep, hnr, hnc]
    simp only [processUpdates, hstep, List.map]
    rw [ih c h5 (fun p hp => h p (List.mem_cons_of_mem _ hp))]
    simp

theorem processUpdates_enumFrom (t0 : Nat) (l : List (Ctx × Nat)) :
    ∀ c, (∀ p ∈ l, p.2 - t0 ≤ timeFrame) →
      processUpdates l (some { start := t0, count := c }) =
        (List.enumFrom c l).map firstFiveOutcome := by
  induction l with
  | nil => intro c h; rfl
  | cons hd tl ih =>
    intro c h
    obtain ⟨cx, t⟩ := hd
    have ht : t - t0 ≤ timeFrame := (h (cx, t) (List.mem_cons_self _ _))
    have hnr : ¬ (t - t0 > timeFrame) := by omega
    by_cases hc : c < rlLimit
    · have hstep : limitStep t (some { start := t0, count := c }) =
          (true, { start := t0, count := c + 1 }) := by
        simp [limitStep, hnr, hc]
      simp only [processUpdates, hstep, List.enumFrom, List.map]
      rw [ih (c + 1) (fun p hp => h p (List.mem_cons_of_mem _ hp))]
      simp [firstFiveOutcome, hc]
    · have hstep : limitStep t (some { start := t0, count := c }) =
          (false, { start := t0, count := c }) := by
        simp [limitStep, hnr, hc]
      simp only [processUpdates, hstep, List.enumFrom, List.map]
      rw [processUpdates_all_rejected t0 tl c (by omega)
        (fun p hp => h p (List.mem_cons_of_mem _ hp))]
      rw [enumFrom_map_rejected tl (c + 1) (by omega)]
      simp [firstFiveOutcome, hc]

/-- Claim C1: among eligible updates for one key arriving within a single
2000-time-unit window, exactly the first 5 (positions 0..4) are forwarded to
handlers; every later one is rejected — not forwarded, a warning carrying
the sender and chat identity emitted, and one `Slow down please` reply sent. -/
theorem rate_limit_first_five (c0 : Ctx) (t0 : Nat) (rest : List (Ctx × Nat))
    (h : ∀ p ∈ rest, t0 ≤ p.2 ∧ p.2 - t0 ≤ timeFrame) :
    processUpdates ((c0, t0) :: rest) none =
      (List.enumFrom 0 ((c0, t0) :: rest)).map firstFiveOutcome := by
  have hstep : limitStep t0 none = (true, { start := t0, count := 1 }) := by
    simp [limitStep, rlLimit]
  simp only [processUpdates, hstep, List.enumFrom, List.map]
  rw [processUpdates_enumFrom t0 rest 1 (fun p hp => (h p hp).2)]
  simp [firstFiveOutcome, rlLimit]

/-- Witness for `rate_limit_first_five`: seven command updates in one
window — the first five forwarded, the sixth and seventh rejected with the
warning and the reply. -/
theorem rate_limit_first_five_witness :
    processUpdates [(ctxCommand, 0), (ctxCommand, 100), (ctxCommand, 200), (ctxCommand, 300),
        (ctxCommand, 400), (ctxCommand, 500), (ctxCommand, 600)] none =
      [admittedOutcome, admittedOutcome, admittedOutcome, admittedOutcome, admittedOutcome,
        rejectedOutcome ctxCommand, rejectedOutcome ctxCommand] := by
  rw [rate_limit_first_five ctxCommand 0
    [(ctxCommand, 100), (ctxCommand, 200), (ctxCommand, 300),
      (ctxCommand, 400), (ctxCommand, 500), (ctxCommand, 600)] (by decide)]
  decide

end Circles
